import Mathlib

set_option linter.unusedVariables false

/-!
Verification of the password-reset backend (`app/routers/auth.py` and its
collaborators in `app/utils.py`, `app/models.py`, `app/schemas.py`,
`app/services/email_service.py`).

The database is embedded as an explicit state (`DBState`) holding the rows of
the `users` and `password_reset_tokens` tables as lists; SQLAlchemy's
`query(...).filter(cond).first()` becomes `List.find?`, a committed bulk
`UPDATE ... WHERE cond` becomes a `List.map` that rewrites the matching rows,
and `db.add` appends a row.  Timestamps (`datetime.utcnow()`) are modelled as
natural numbers; the current time is passed to each operation.  The bcrypt
hasher and verifier are impure collaborators and are passed in as function
parameters, as is the value produced by `generate_reset_token` and the
auto-increment id of an inserted row.  An endpoint that can `raise
HTTPException` returns an `Except HTTPException` result paired with the
post-state; the state component of an error result is the unchanged input
state, matching the fact that in the source every `raise` happens before any
row is mutated.
-/

/-- Row of the `users` table (`app/models.py`, class `User`). -/
structure User where
  id : Nat
  email : String
  hashed_password : String
  is_active : Bool
  created_at : Nat
  updated_at : Nat
deriving Repr, DecidableEq

/-- Row of the `password_reset_tokens` table (`app/models.py`,
class `PasswordResetToken`).  `used_at = none` means the token is unused. -/
structure PasswordResetToken where
  id : Nat
  user_id : Nat
  token : String
  expires_at : Nat
  used_at : Option Nat
  created_at : Nat
deriving Repr, DecidableEq

/-- The two tables the reset flow touches. -/
structure DBState where
  users : List User
  tokens : List PasswordResetToken
deriving Repr, DecidableEq

/-- The configuration fields of `app/config.py` used by the reset flow. -/
structure Settings where
  FRONTEND_URL : String
  TOKEN_EXPIRATION_MINUTES : Nat := 30
deriving Repr, DecidableEq

/-- `app/utils.py`, `is_token_expired`: `datetime.utcnow() > expires_at`. -/
def is_token_expired (now expires_at : Nat) : Bool :=
  now > expires_at

/-- `app/utils.py`, `get_token_expiration`:
`utcnow() + timedelta(minutes=TOKEN_EXPIRATION_MINUTES)` (time in seconds). -/
def get_token_expiration (cfg : Settings) (now : Nat) : Nat :=
  now + cfg.TOKEN_EXPIRATION_MINUTES * 60

/-- `app/schemas.py`, `MessageResponse`. -/
structure MessageResponse where
  message : String
deriving Repr, DecidableEq

/-- `app/schemas.py`, `TokenValidationResponse`. -/
structure TokenValidationResponse where
  valid : Bool
  message : String
  email : Option String
deriving Repr, DecidableEq

/-- A FastAPI `HTTPException` as raised in `auth.py`: status code and detail. -/
structure HTTPException where
  status_code : Nat
  detail : String
deriving Repr, DecidableEq

/-- `app/schemas.py`, `LoginResponse`. -/
structure LoginResponse where
  message : String
  user : User
deriving Repr, DecidableEq

/-- Outcome of the email collaborator (`send_password_reset_email`): the call
may report success, report failure, or raise.  The caller in
`forgot_password` wraps the call in `try/except`, so the outcome can only
affect logging, never the response or the database state. -/
inductive EmailOutcome
  | success
  | failure
  | raised
deriving Repr, DecidableEq

/-- `auth.py`, `login` (lines 61-93): find the user by email, verify the
password, check `is_active`; the first two failures raise the same
401 "Invalid email or password".  `verifyf` is the bcrypt verifier
(`app/utils.py`, `verify_password`). -/
def login (st : DBState) (verifyf : String → String → Bool)
    (email password : String) : Except HTTPException LoginResponse :=
  match st.users.find? (fun u => u.email == email) with
  | none => .error ⟨401, "Invalid email or password"⟩
  | some user =>
    if !(verifyf password user.hashed_password) then
      .error ⟨401, "Invalid email or password"⟩
    else if !user.is_active then
      .error ⟨403, "Account is inactive"⟩
    else
      .ok ⟨"Login successful", user⟩

/-- `auth.py`, `forgot_password` (lines 96-143).  `newTokenValue` is the value
produced by `generate_reset_token`, `newTokenId` the auto-increment id of the
inserted row.  Returns the response, the post-state, and the email attempt
(recipient and reset link) handed to `send_password_reset_email`, or `none`
when no email is attempted.  The email outcome is swallowed by the
`try/except` in the source and so is ignored here. -/
def forgot_password (cfg : Settings) (st : DBState) (now : Nat)
    (newTokenValue : String) (newTokenId : Nat) (email : String)
    (emailOutcome : EmailOutcome) :
    MessageResponse × DBState × Option (String × String) :=
  match st.users.find? (fun u => u.email == email) with
  | none => (⟨"If the email exists, a password reset link has been sent"⟩, st, none)
  | some user =>
    let tokens' := st.tokens.map (fun t =>
      if t.user_id == user.id && t.used_at.isNone then
        { t with used_at := some now }
      else t)
    let reset_token : PasswordResetToken :=
      { id := newTokenId, user_id := user.id, token := newTokenValue,
        expires_at := get_token_expiration cfg now, used_at := none,
        created_at := now }
    let reset_link := cfg.FRONTEND_URL ++ "/reset-password?token=" ++ newTokenValue
    (⟨"If the email exists, a password reset link has been sent"⟩,
      { st with tokens := tokens' ++ [reset_token] },
      some (user.email, reset_link))

/-- `auth.py`, `validate_token` (lines 146-185): read-only probe returning a
`TokenValidationResponse`; the state is threaded through unchanged because the
handler only runs queries.  In the source `if reset_token.used_at:` tests
truthiness of the nullable timestamp, i.e. `used_at.isSome`. -/
def validate_token (st : DBState) (now : Nat) (token : String) :
    TokenValidationResponse × DBState :=
  match st.tokens.find? (fun t => t.token == token) with
  | none => (⟨false, "Invalid or expired token", none⟩, st)
  | some reset_token =>
    if reset_token.used_at.isSome then
      (⟨false, "This reset link has already been used", none⟩, st)
    else if is_token_expired now reset_token.expires_at then
      (⟨false, "This reset link has expired", none⟩, st)
    else
      let user := st.users.find? (fun u => u.id == reset_token.user_id)
      (⟨true, "Token is valid", user.map (fun u => u.email)⟩, st)

/-- `auth.py`, `reset_password` (lines 188-237): the same three token checks
as `validate_token` but raising 400-errors, then a user lookup raising 404,
then both mutations (`user.hashed_password = hash_password(new_password)` and
`reset_token.used_at = utcnow()`) followed by a single `db.commit()`.  The
`updated_at` bump reflects the column's `onupdate=func.now()`.  `hashf` is
the bcrypt hasher (`app/utils.py`, `hash_password`). -/
def reset_password (st : DBState) (now : Nat) (hashf : String → String)
    (token new_password : String) :
    Except HTTPException MessageResponse × DBState :=
  match st.tokens.find? (fun t => t.token == token) with
  | none => (.error ⟨400, "Invalid or expired token"⟩, st)
  | some reset_token =>
    if reset_token.used_at.isSome then
      (.error ⟨400, "This reset link has already been used"⟩, st)
    else if is_token_expired now reset_token.expires_at then
      (.error ⟨400, "This reset link has expired"⟩, st)
    else
      match st.users.find? (fun u => u.id == reset_token.user_id) with
      | none => (.error ⟨404, "User not found"⟩, st)
      | some user =>
        let users' := st.users.map (fun u =>
          if u.id == user.id then
            { u with hashed_password := hashf new_password, updated_at := now }
          else u)
        let tokens' := st.tokens.map (fun t =>
          if t.id == reset_token.id then { t with used_at := some now } else t)
        (.ok ⟨"Password has been reset successfully"⟩, ⟨users', tokens'⟩)

/-- Modelled from the spec: the repository's `app/database.py` (engine,
session and transaction configuration behind `get_db`) is not among the
available sources; spec section 5 requires that `resetPassword`'s
read-check-then-mutate sequence execute as one atomic transaction with
row-level locking, so N simultaneous calls are equivalent to running the
handler sequentially in some order.  `run_resets` runs one `reset_password`
call per password in the list, threading the state. -/
def run_resets (now : Nat) (hashf : String → String) (token : String) :
    DBState → List String → List (Except HTTPException MessageResponse) × DBState
  | st, [] => ([], st)
  | st, pw :: rest =>
    let r := reset_password st now hashf token pw
    let rs := run_resets now hashf token r.2 rest
    (r.1 :: rs.1, rs.2)

/-- Tokens of user `uid` that are still unused. -/
def unused_for (uid : Nat) (t : PasswordResetToken) : Bool :=
  t.user_id == uid && t.used_at.isNone

/-- `find?` commutes with a `map` whose function preserves the predicate. -/
theorem find?_map_of_pres {α : Type} (p : α → Bool) (f : α → α)
    (h : ∀ x, p (f x) = p x) :
    ∀ l : List α, (l.map f).find? p = (l.find? p).map f
  | [] => rfl
  | a :: l => by
    rw [List.map_cons]
    cases hp : p a
    · rw [List.find?_cons_of_neg _ (by simp [h a, hp]),
        List.find?_cons_of_neg _ (by simp [hp]),
        find?_map_of_pres p f h l]
    · rw [List.find?_cons_of_pos _ (by simp [h a, hp]),
        List.find?_cons_of_pos _ (by simp [hp])]
      rfl

/-- A `map` whose function falsifies the predicate everywhere yields count 0. -/
theorem countP_map_zero {α : Type} (p : α → Bool) (f : α → α)
    (h : ∀ x, p (f x) = false) :
    ∀ l : List α, (l.map f).countP p = 0
  | [] => rfl
  | a :: l => by
    rw [List.map_cons, List.countP_cons, countP_map_zero p f h l, h a]
    rfl

theorem reset_password_not_found (st : DBState) (now : Nat)
    (hashf : String → String) (tok pw : String)
    (h : st.tokens.find? (fun t => t.token == tok) = none) :
    reset_password st now hashf tok pw =
      (.error ⟨400, "Invalid or expired token"⟩, st) := by
  simp [reset_password, h]

theorem reset_password_used (st : DBState) (now : Nat)
    (hashf : String → String) (tok pw : String) (rt : PasswordResetToken)
    (h : st.tokens.find? (fun t => t.token == tok) = some rt)
    (hu : rt.used_at.isSome = true) :
    reset_password st now hashf tok pw =
      (.error ⟨400, "This reset link has already been used"⟩, st) := by
  simp [reset_password, h, hu]

theorem reset_password_expired (st : DBState) (now : Nat)
    (hashf : String → String) (tok pw : String) (rt : PasswordResetToken)
    (h : st.tokens.find? (fun t => t.token == tok) = some rt)
    (hu : rt.used_at = none)
    (he : is_token_expired now rt.expires_at = true) :
    reset_password st now hashf tok pw =
      (.error ⟨400, "This reset link has expired"⟩, st) := by
  simp [reset_password, h, hu, he]

theorem reset_password_no_user (st : DBState) (now : Nat)
    (hashf : String → String) (tok pw : String) (rt : PasswordResetToken)
    (h : st.tokens.find? (fun t => t.token == tok) = some rt)
    (hu : rt.used_at = none)
    (he : is_token_expired now rt.expires_at = false)
    (hus : st.users.find? (fun u => u.id == rt.user_id) = none) :
    reset_password st now hashf tok pw = (.error ⟨404, "User not found"⟩, st) := by
  simp [reset_password, h, hu, he, hus]

theorem validate_token_not_found (st : DBState) (now : Nat) (tok : String)
    (h : st.tokens.find? (fun t => t.token == tok) = none) :
    validate_token st now tok = (⟨false, "Invalid or expired token", none⟩, st) := by
  simp [validate_token, h]

theorem validate_token_used (st : DBState) (now : Nat) (tok : String)
    (rt : PasswordResetToken)
    (h : st.tokens.find? (fun t => t.token == tok) = some rt)
    (hu : rt.used_at.isSome = true) :
    validate_token st now tok =
      (⟨false, "This reset link has already been used", none⟩, st) := by
  simp [validate_token, h, hu]

theorem validate_token_expired (st : DBState) (now : Nat) (tok : String)
    (rt : PasswordResetToken)
    (h : st.tokens.find? (fun t => t.token == tok) = some rt)
    (hu : rt.used_at = none)
    (he : is_token_expired now rt.expires_at = true) :
    validate_token st now tok =
      (⟨false, "This reset link has expired", none⟩, st) := by
  simp [validate_token, h, hu, he]

theorem validate_token_valid (st : DBState) (now : Nat) (tok : String)
    (rt : PasswordResetToken)
    (h : st.tokens.find? (fun t => t.token == tok) = some rt)
    (hu : rt.used_at = none)
    (he : is_token_expired now rt.expires_at = false) :
    validate_token st now tok =
      (⟨true, "Token is valid",
        (st.users.find? (fun u => u.id == rt.user_id)).map (fun u => u.email)⟩,
        st) := by
  simp [validate_token, h, hu, he]

theorem forgot_password_absent (cfg : Settings) (st : DBState) (now : Nat)
    (tv : String) (idn : Nat) (email : String) (o : EmailOutcome)
    (h : st.users.find? (fun u => u.email == email) = none) :
    forgot_password cfg st now tv idn email o =
      (⟨"If the email exists, a password reset link has been sent"⟩, st, none) := by
  simp [forgot_password, h]

theorem forgot_password_present (cfg : Settings) (st : DBState) (now : Nat)
    (tv : String) (idn : Nat) (email : String) (o : EmailOutcome) (u : User)
    (h : st.users.find? (fun v => v.email == email) = some u) :
    forgot_password cfg st now tv idn email o =
      (⟨"If the email exists, a password reset link has been sent"⟩,
        { st with tokens :=
            st.tokens.map (fun t =>
              if t.user_id == u.id && t.used_at.isNone then
                { t with used_at := some now }
              else t) ++
            [{ id := idn, user_id := u.id, token := tv,
                expires_at := get_token_expiration cfg now, used_at := none,
                created_at := now }] },
        some (u.email, cfg.FRONTEND_URL ++ "/reset-password?token=" ++ tv)) := by
  simp [forgot_password, h]

theorem forgot_password_message (cfg : Settings) (st : DBState) (now : Nat)
    (tv : String) (idn : Nat) (email : String) (o : EmailOutcome) :
    (forgot_password cfg st now tv idn email o).1 =
      ⟨"If the email exists, a password reset link has been sent"⟩ := by
  cases h : st.users.find? (fun u => u.email == email)
  · rw [forgot_password_absent cfg st now tv idn email o h]
  · rw [forgot_password_present cfg st now tv idn email o _ h]

theorem forgot_password_users (cfg : Settings) (st : DBState) (now : Nat)
    (tv : String) (idn : Nat) (email : String) (o : EmailOutcome) :
    (forgot_password cfg st now tv idn email o).2.1.users = st.users := by
  cases h : st.users.find? (fun u => u.email == email)
  · rw [forgot_password_absent cfg st now tv idn email o h]
  · rw [forgot_password_present cfg st now tv idn email o _ h]

/-- After a `forgot_password` call that found the user, exactly one stored
token of that user is unused. -/
theorem countP_unused_after_forgot (cfg : Settings) (st : DBState) (now : Nat)
    (tv : String) (idn : Nat) (email : String) (o : EmailOutcome) (u : User)
    (h : st.users.find? (fun v => v.email == email) = some u) :
    ((forgot_password cfg st now tv idn email o).2.1.tokens).countP
        (unused_for u.id) = 1 := by
  rw [forgot_password_present cfg st now tv idn email o u h]
  show (List.map _ _ ++ [_]).countP _ = 1
  rw [List.countP_append, countP_map_zero]
  · simp [unused_for, List.countP_cons]
  · intro t
    by_cases hc : (t.user_id == u.id && t.used_at.isNone) = true
    · simp only [hc, if_pos]
      simp [unused_for]
    · rw [if_neg hc]
      unfold unused_for
      exact eq_false_of_ne_true hc

/-- Consuming a found token keeps it the first hit of the lookup, now with
`used_at` set. -/
theorem find?_token_consumed (tokens : List PasswordResetToken) (tok : String)
    (now : Nat) (rt : PasswordResetToken)
    (h : tokens.find? (fun t => t.token == tok) = some rt) :
    (tokens.map (fun t =>
        if t.id == rt.id then { t with used_at := some now } else t)).find?
        (fun t => t.token == tok) = some { rt with used_at := some now } := by
  rw [find?_map_of_pres _ _ ?hp, h]
  · simp
  case hp =>
    intro t
    by_cases hc : (t.id == rt.id) = true <;> simp [hc]

/-- Rewriting the found user's password keeps it the first hit of the lookup,
now with the new hash. -/
theorem find?_user_updated (users : List User) (uid : Nat)
    (hashf : String → String) (pw : String) (now : Nat) (u : User)
    (h : users.find? (fun v => v.id == uid) = some u) :
    (users.map (fun v =>
        if v.id == u.id then
          { v with hashed_password := hashf pw, updated_at := now }
        else v)).find? (fun v => v.id == uid) =
      some { u with hashed_password := hashf pw, updated_at := now } := by
  rw [find?_map_of_pres _ _ ?hp, h]
  · simp
  case hp =>
    intro v
    by_cases hc : (v.id == u.id) = true <;> simp [hc]

theorem reset_password_success (st : DBState) (now : Nat)
    (hashf : String → String) (tok pw : String) (rt : PasswordResetToken)
    (u : User)
    (h : st.tokens.find? (fun t => t.token == tok) = some rt)
    (hu : rt.used_at = none)
    (he : is_token_expired now rt.expires_at = false)
    (hus : st.users.find? (fun v => v.id == rt.user_id) = some u) :
    reset_password st now hashf tok pw =
      (.ok ⟨"Password has been reset successfully"⟩,
        ⟨st.users.map (fun v =>
            if v.id == u.id then
              { v with hashed_password := hashf pw, updated_at := now }
            else v),
          st.tokens.map (fun t =>
            if t.id == rt.id then { t with used_at := some now } else t)⟩) := by
  simp [reset_password, h, hu, he, hus]

/-- Once the first lookup hit of the token is used, every further
`reset_password` on it fails with the already-used error and leaves the state
untouched, so a run of such calls produces only that error. -/
theorem run_resets_all_used (now : Nat) (hashf : String → String)
    (tok : String) (st : DBState) (rt : PasswordResetToken)
    (hf : st.tokens.find? (fun t => t.token == tok) = some rt)
    (hu : rt.used_at.isSome = true) :
    ∀ pws : List String,
      run_resets now hashf tok st pws =
        (List.replicate pws.length
          (.error ⟨400, "This reset link has already been used"⟩), st)
  | [] => rfl
  | pw :: rest => by
    show ((reset_password st now hashf tok pw).1 :: _, _) = _
    rw [reset_password_used st now hashf tok pw rt hf hu]
    rw [run_resets_all_used now hashf tok st rt hf hu rest]
    rfl

/-- Sample bcrypt stand-in used by the concrete witnesses. -/
def sampleHash (s : String) : String :=
  "bcrypt$" ++ s

/-- Sample verifier matching `sampleHash`. -/
def sampleVerify (p h : String) : Bool :=
  sampleHash p == h

def aliceUser : User :=
  ⟨1, "alice-example", "bcrypt$old", true, 0, 0⟩

def aliceToken : PasswordResetToken :=
  ⟨7, 1, "tok123", 1000, none, 0⟩

def sampleState : DBState :=
  ⟨[aliceUser], [aliceToken]⟩

def sampleCfg : Settings :=
  ⟨"https://app.example", 30⟩

def orphanToken : PasswordResetToken :=
  ⟨3, 42, "orph", 1000, none, 0⟩

def orphanState : DBState :=
  ⟨[], [orphanToken]⟩

def inactiveUser : User :=
  ⟨2, "bob-example", "bcrypt$bobpw", false, 0, 0⟩

def inactiveToken : PasswordResetToken :=
  ⟨9, 2, "tokbob", 1000, none, 0⟩

def inactiveState : DBState :=
  ⟨[inactiveUser], [inactiveToken]⟩

/-- C3: for every token value, `validate_token` returns exactly one of four
results determined by the stored token's state: not found gives
`valid = false` with "Invalid or expired token"; found with `used_at` set
gives `valid = false` with "This reset link has already been used"; found,
unused and past `expires_at` gives `valid = false` with "This reset link has
expired"; otherwise `valid = true` with "Token is valid" and the owning
user's email. -/
theorem validate_token_cases (st : DBState) (now : Nat) (tok : String) :
    (st.tokens.find? (fun t => t.token == tok) = none →
      (validate_token st now tok).1 = ⟨false, "Invalid or expired token", none⟩) ∧
    (∀ rt, st.tokens.find? (fun t => t.token == tok) = some rt →
      (rt.used_at.isSome = true →
        (validate_token st now tok).1 =
          ⟨false, "This reset link has already been used", none⟩) ∧
      (rt.used_at = none → is_token_expired now rt.expires_at = true →
        (validate_token st now tok).1 =
          ⟨false, "This reset link has expired", none⟩) ∧
      (rt.used_at = none → is_token_expired now rt.expires_at = false →
        (validate_token st now tok).1 =
          ⟨true, "Token is valid",
            (st.users.find? (fun u => u.id == rt.user_id)).map
              (fun u => u.email)⟩)) := by
  refine ⟨fun h => ?_, fun rt h => ⟨fun hu => ?_, fun hu he => ?_, fun hu he => ?_⟩⟩
  · rw [validate_token_not_found st now tok h]
  · rw [validate_token_used st now tok rt h hu]
  · rw [validate_token_expired st now tok rt h hu he]
  · rw [validate_token_valid st now tok rt h hu he]

/-- C3 witness: the sample valid token probes as valid with the owner's
email. -/
theorem validate_token_cases_witness :
    (validate_token sampleState 5 "tok123").1 =
      ⟨true, "Token is valid", some "alice-example"⟩ := by
  have h := ((validate_token_cases sampleState 5 "tok123").2 aliceToken
    (by decide)).2.2 (by decide) (by decide)
  rw [h]
  decide

/-- C4: `validate_token` is side-effect-free: it returns the stores
unchanged, so a subsequent `validate_token` or `reset_password` started from
the post-state behaves exactly as if started from the pre-state. -/
theorem validate_token_side_effect_free (st : DBState) (now : Nat) (tok : String) :
    (validate_token st now tok).2 = st ∧
    (∀ now2 tok2,
      validate_token (validate_token st now tok).2 now2 tok2 =
        validate_token st now2 tok2) ∧
    (∀ now2 hashf tok2 pw,
      reset_password (validate_token st now tok).2 now2 hashf tok2 pw =
        reset_password st now2 hashf tok2 pw) := by
  have hst : (validate_token st now tok).2 = st := by
    cases h : st.tokens.find? (fun t => t.token == tok) with
    | none => rw [validate_token_not_found st now tok h]
    | some rt =>
      cases hu : rt.used_at with
      | some x =>
        rw [validate_token_used st now tok rt h (by rw [hu]; rfl)]
      | none =>
        cases he : is_token_expired now rt.expires_at with
        | true => rw [validate_token_expired st now tok rt h hu he]
        | false => rw [validate_token_valid st now tok rt h hu he]
  exact ⟨hst, fun now2 tok2 => by rw [hst], fun now2 hashf tok2 pw => by rw [hst]⟩

/-- C9: a stored token that is unused and unexpired but whose `user_id`
matches no user still probes as `valid = true`, "Token is valid", with a null
email, while `reset_password` in the same state fails with the 404
"User not found". -/
theorem validate_token_missing_user (st : DBState) (now : Nat) (tok : String)
    (rt : PasswordResetToken) (hashf : String → String) (pw : String)
    (h : st.tokens.find? (fun t => t.token == tok) = some rt)
    (hu : rt.used_at = none)
    (he : is_token_expired now rt.expires_at = false)
    (hus : st.users.find? (fun u => u.id == rt.user_id) = none) :
    (validate_token st now tok).1 = ⟨true, "Token is valid", none⟩ ∧
    reset_password st now hashf tok pw = (.error ⟨404, "User not found"⟩, st) := by
  constructor
  · rw [validate_token_valid st now tok rt h hu he, hus]
    rfl
  · exact reset_password_no_user st now hashf tok pw rt h hu he hus

/-- C9 witness: a concrete orphaned token (no users at all) probes valid with
a null email and makes `reset_password` fail with 404. -/
theorem validate_token_missing_user_witness :
    (validate_token orphanState 5 "orph").1 = ⟨true, "Token is valid", none⟩ ∧
    reset_password orphanState 5 sampleHash "orph" "newpw123" =
      (.error ⟨404, "User not found"⟩, orphanState) :=
  validate_token_missing_user orphanState 5 "orph" orphanToken sampleHash
    "newpw123" (by decide) (by decide) (by decide) (by decide)

/-- C1: `reset_password` applies its checks in the order
not-found, already-used, expired, user-missing, raising 400 "Invalid or
expired token", 400 "This reset link has already been used", 400 "This reset
link has expired" and 404 "User not found" for the first failing check; when
the token is found, unused and unexpired and its user exists, the call
succeeds, the user's stored password becomes the hash of the new password and
the token's `used_at` is set. -/
theorem reset_password_checks_and_success (st : DBState) (now : Nat)
    (hashf : String → String) (tok pw : String) :
    (st.tokens.find? (fun t => t.token == tok) = none →
      reset_password st now hashf tok pw =
        (.error ⟨400, "Invalid or expired token"⟩, st)) ∧
    (∀ rt, st.tokens.find? (fun t => t.token == tok) = some rt →
      (rt.used_at.isSome = true →
        reset_password st now hashf tok pw =
          (.error ⟨400, "This reset link has already been used"⟩, st)) ∧
      (rt.used_at = none → is_token_expired now rt.expires_at = true →
        reset_password st now hashf tok pw =
          (.error ⟨400, "This reset link has expired"⟩, st)) ∧
      (rt.used_at = none → is_token_expired now rt.expires_at = false →
        (st.users.find? (fun v => v.id == rt.user_id) = none →
          reset_password st now hashf tok pw =
            (.error ⟨404, "User not found"⟩, st)) ∧
        (∀ u, st.users.find? (fun v => v.id == rt.user_id) = some u →
          (reset_password st now hashf tok pw).1 =
            .ok ⟨"Password has been reset successfully"⟩ ∧
          ((reset_password st now hashf tok pw).2.users.find?
              (fun v => v.id == rt.user_id)).map User.hashed_password =
            some (hashf pw) ∧
          (reset_password st now hashf tok pw).2.tokens.find?
              (fun t => t.token == tok) =
            some { rt with used_at := some now }))) := by
  refine ⟨fun h => reset_password_not_found st now hashf tok pw h,
    fun rt h => ⟨fun hu => reset_password_used st now hashf tok pw rt h hu,
      fun hu he => reset_password_expired st now hashf tok pw rt h hu he,
      fun hu he =>
        ⟨fun hus => reset_password_no_user st now hashf tok pw rt h hu he hus,
          fun u hus => ?_⟩⟩⟩
  rw [reset_password_success st now hashf tok pw rt u h hu he hus]
  refine ⟨rfl, ?_, find?_token_consumed st.tokens tok now rt h⟩
  show ((st.users.map _).find? _).map _ = _
  rw [find?_user_updated st.users rt.user_id hashf pw now u hus]
  rfl

/-- C1 witness: on the sample state the valid token resets the password, the
stored user's hash becomes the hash of the new password and the token is
consumed. -/
theorem reset_password_checks_and_success_witness :
    (reset_password sampleState 5 sampleHash "tok123" "newpw123").1 =
      .ok ⟨"Password has been reset successfully"⟩ ∧
    ((reset_password sampleState 5 sampleHash "tok123" "newpw123").2.users.find?
        (fun v => v.id == aliceToken.user_id)).map User.hashed_password =
      some (sampleHash "newpw123") ∧
    (reset_password sampleState 5 sampleHash "tok123" "newpw123").2.tokens.find?
        (fun t => t.token == "tok123") =
      some { aliceToken with used_at := some 5 } :=
  (((reset_password_checks_and_success sampleState 5 sampleHash "tok123"
      "newpw123").2 aliceToken (by decide)).2.2 (by decide) (by decide)).2
    aliceUser (by decide)

/-- C2: `reset_password` is atomic: every failing call returns the stores
unchanged, and a successful call returns the state with the password
overwrite and the token consumption both applied. -/
theorem reset_password_atomic (st : DBState) (now : Nat)
    (hashf : String → String) (tok pw : String) :
    (∀ e, (reset_password st now hashf tok pw).1 = .error e →
      (reset_password st now hashf tok pw).2 = st) ∧
    (∀ m, (reset_password st now hashf tok pw).1 = .ok m →
      ∃ rt u, st.tokens.find? (fun t => t.token == tok) = some rt ∧
        st.users.find? (fun v => v.id == rt.user_id) = some u ∧
        (reset_password st now hashf tok pw).2 =
          ⟨st.users.map (fun v =>
              if v.id == u.id then
                { v with hashed_password := hashf pw, updated_at := now }
              else v),
            st.tokens.map (fun t =>
              if t.id == rt.id then { t with used_at := some now } else t)⟩) := by
  cases h : st.tokens.find? (fun t => t.token == tok) with
  | none =>
    rw [reset_password_not_found st now hashf tok pw h]
    exact ⟨fun e he => rfl, fun m hm => absurd hm (by simp)⟩
  | some rt =>
    cases hu : rt.used_at with
    | some x =>
      rw [reset_password_used st now hashf tok pw rt h (by rw [hu]; rfl)]
      exact ⟨fun e he => rfl, fun m hm => absurd hm (by simp)⟩
    | none =>
      cases he : is_token_expired now rt.expires_at with
      | true =>
        rw [reset_password_expired st now hashf tok pw rt h hu he]
        exact ⟨fun e he2 => rfl, fun m hm => absurd hm (by simp)⟩
      | false =>
        cases hus : st.users.find? (fun v => v.id == rt.user_id) with
        | none =>
          rw [reset_password_no_user st now hashf tok pw rt h hu he hus]
          exact ⟨fun e he2 => rfl, fun m hm => absurd hm (by simp)⟩
        | some u =>
          rw [reset_password_success st now hashf tok pw rt u h hu he hus]
          exact ⟨fun e he2 => absurd he2 (by simp),
            fun m hm => ⟨rt, u, rfl, hus, rfl⟩⟩

/-- C2 witness: a failing call (unknown token value) leaves the sample state
unchanged. -/
theorem reset_password_atomic_witness :
    (reset_password sampleState 5 sampleHash "unknown" "newpw123").2 =
      sampleState :=
  (reset_password_atomic sampleState 5 sampleHash "unknown" "newpw123").1
    ⟨400, "Invalid or expired token"⟩ rfl

/-- C7: a login with an unknown email and a login with a known email but a
password failing verification raise the same error, 401 "Invalid email or
password", so the two failures are indistinguishable to the caller. -/
theorem login_error_indistinguishable (st : DBState)
    (verifyf : String → String → Bool) (email1 pw1 email2 pw2 : String)
    (u : User)
    (h1 : st.users.find? (fun v => v.email == email1) = none)
    (h2 : st.users.find? (fun v => v.email == email2) = some u)
    (hv : verifyf pw2 u.hashed_password = false) :
    login st verifyf email1 pw1 = .error ⟨401, "Invalid email or password"⟩ ∧
    login st verifyf email2 pw2 = .error ⟨401, "Invalid email or password"⟩ ∧
    login st verifyf email1 pw1 = login st verifyf email2 pw2 := by
  have e1 : login st verifyf email1 pw1 =
      .error ⟨401, "Invalid email or password"⟩ := by
    simp [login, h1]
  have e2 : login st verifyf email2 pw2 =
      .error ⟨401, "Invalid email or password"⟩ := by
    simp [login, h2, hv]
  exact ⟨e1, e2, e1.trans e2.symm⟩

/-- C7 witness: on the sample state, a login for an unregistered email and a
login for the registered email with a wrong password produce the same
error. -/
theorem login_error_indistinguishable_witness :
    login sampleState sampleVerify "nobody-example" "whatever" =
      .error ⟨401, "Invalid email or password"⟩ ∧
    login sampleState sampleVerify "alice-example" "wrongpw" =
      .error ⟨401, "Invalid email or password"⟩ ∧
    login sampleState sampleVerify "nobody-example" "whatever" =
      login sampleState sampleVerify "alice-example" "wrongpw" :=
  login_error_indistinguishable sampleState sampleVerify "nobody-example"
    "whatever" "alice-example" "wrongpw" aliceUser (by decide) (by decide)
    (by decide)

/-- C5: a `forgot_password` call that finds the user marks every previously
unused token of that user as used, inserts exactly one new unused token, and
after two successive calls for the same user exactly one stored token of that
user is unused. -/
theorem forgot_password_invalidate_on_reissue (cfg : Settings) (st : DBState)
    (now1 now2 : Nat) (tv1 tv2 : String) (id1 id2 : Nat) (email : String)
    (o1 o2 : EmailOutcome) (u : User)
    (h : st.users.find? (fun v => v.email == email) = some u) :
    (∀ t ∈ st.tokens, t.user_id = u.id → t.used_at = none →
      { t with used_at := some now1 } ∈
        (forgot_password cfg st now1 tv1 id1 email o1).2.1.tokens) ∧
    (⟨id1, u.id, tv1, get_token_expiration cfg now1, none, now1⟩ :
        PasswordResetToken) ∈
      (forgot_password cfg st now1 tv1 id1 email o1).2.1.tokens ∧
    ((forgot_password cfg st now1 tv1 id1 email o1).2.1.tokens).countP
        (unused_for u.id) = 1 ∧
    ((forgot_password cfg (forgot_password cfg st now1 tv1 id1 email o1).2.1
        now2 tv2 id2 email o2).2.1.tokens).countP (unused_for u.id) = 1 := by
  refine ⟨?_, ?_, countP_unused_after_forgot cfg st now1 tv1 id1 email o1 u h, ?_⟩
  · intro t ht hid hun
    rw [forgot_password_present cfg st now1 tv1 id1 email o1 u h]
    have hc : (t.user_id == u.id && t.used_at.isNone) = true := by
      simp [hid, hun]
    refine List.mem_append_left _ ?_
    exact List.mem_map.mpr ⟨t, ht, by simp [hc]⟩
  · rw [forgot_password_present cfg st now1 tv1 id1 email o1 u h]
    exact List.mem_append_right _ (by simp)
  · have h2 : (forgot_password cfg st now1 tv1 id1 email o1).2.1.users.find?
        (fun v => v.email == email) = some u := by
      rw [forgot_password_users cfg st now1 tv1 id1 email o1]
      exact h
    exact countP_unused_after_forgot cfg _ now2 tv2 id2 email o2 u h2

/-- C5 witness: two successive `forgot_password` calls for the sample user
leave exactly one unused token for that user. -/
theorem forgot_password_invalidate_on_reissue_witness :
    ((forgot_password sampleCfg
        (forgot_password sampleCfg sampleState 10 "tv1" 100 "alice-example"
          EmailOutcome.success).2.1
        20 "tv2" 101 "alice-example" EmailOutcome.failure).2.1.tokens).countP
      (unused_for aliceUser.id) = 1 :=
  (forgot_password_invalidate_on_reissue sampleCfg sampleState 10 20 "tv1"
    "tv2" 100 101 "alice-example" EmailOutcome.success EmailOutcome.failure
    aliceUser (by decide)).2.2.2

/-- C6: `forgot_password` answers with the same success message for a
registered and an unregistered email, and the whole result is independent of
the email delivery outcome; the operation's return type is total, so it never
raises a domain error. -/
theorem forgot_password_anti_enumeration (cfg : Settings) (st : DBState)
    (now1 now2 : Nat) (tv1 tv2 : String) (id1 id2 : Nat)
    (email1 email2 : String) (o1 o2 : EmailOutcome)
    (h1 : (st.users.find? (fun v => v.email == email1)).isSome = true)
    (h2 : st.users.find? (fun v => v.email == email2) = none) :
    (forgot_password cfg st now1 tv1 id1 email1 o1).1 =
      (forgot_password cfg st now2 tv2 id2 email2 o2).1 ∧
    (forgot_password cfg st now1 tv1 id1 email1 o1).1 =
      ⟨"If the email exists, a password reset link has been sent"⟩ ∧
    (∀ o o', forgot_password cfg st now1 tv1 id1 email1 o =
      forgot_password cfg st now1 tv1 id1 email1 o') := by
  refine ⟨?_, forgot_password_message cfg st now1 tv1 id1 email1 o1, ?_⟩
  · rw [forgot_password_message cfg st now1 tv1 id1 email1 o1,
      forgot_password_message cfg st now2 tv2 id2 email2 o2]
  · intro o o'
    rfl

/-- C6 witness: on the sample state the registered and the unregistered email
get the identical response, across all three email outcomes. -/
theorem forgot_password_anti_enumeration_witness :
    (forgot_password sampleCfg sampleState 10 "tv1" 100 "alice-example"
        EmailOutcome.raised).1 =
      (forgot_password sampleCfg sampleState 20 "tv2" 101 "nobody-example"
        EmailOutcome.success).1 :=
  (forgot_password_anti_enumeration sampleCfg sampleState 10 20 "tv1" "tv2"
    100 101 "alice-example" "nobody-example" EmailOutcome.raised
    EmailOutcome.success (by decide) (by decide)).1

/-- C10: neither `forgot_password` nor `reset_password` consults `is_active`:
for a deactivated user, `forgot_password` still invalidates prior tokens,
issues a new token and attempts the reset email, and `reset_password` with a
valid token still overwrites the password and consumes the token, while
`login` rejects the same account with the 403 "Account is inactive". -/
theorem reset_flow_ignores_is_active (cfg : Settings) (st : DBState)
    (now : Nat) (tv : String) (idn : Nat) (email : String) (o : EmailOutcome)
    (hashf : String → String) (verifyf : String → String → Bool)
    (tok pw : String) (u : User) (rt : PasswordResetToken)
    (hu : st.users.find? (fun v => v.email == email) = some u)
    (hinact : u.is_active = false)
    (ht : st.tokens.find? (fun t => t.token == tok) = some rt)
    (htu : rt.used_at = none)
    (hte : is_token_expired now rt.expires_at = false)
    (hru : st.users.find? (fun v => v.id == rt.user_id) = some u) :
    (forgot_password cfg st now tv idn email o).1 =
      ⟨"If the email exists, a password reset link has been sent"⟩ ∧
    ((forgot_password cfg st now tv idn email o).2.1.tokens).countP
        (unused_for u.id) = 1 ∧
    (forgot_password cfg st now tv idn email o).2.2 =
      some (u.email, cfg.FRONTEND_URL ++ "/reset-password?token=" ++ tv) ∧
    (reset_password st now hashf tok pw).1 =
      .ok ⟨"Password has been reset successfully"⟩ ∧
    ((reset_password st now hashf tok pw).2.users.find?
        (fun v => v.id == rt.user_id)).map User.hashed_password =
      some (hashf pw) ∧
    (∀ pw0, verifyf pw0 u.hashed_password = true →
      login st verifyf email pw0 = .error ⟨403, "Account is inactive"⟩) := by
  refine ⟨forgot_password_message cfg st now tv idn email o,
    countP_unused_after_forgot cfg st now tv idn email o u hu, ?_, ?_, ?_, ?_⟩
  · rw [forgot_password_present cfg st now tv idn email o u hu]
  · rw [reset_password_success st now hashf tok pw rt u ht htu hte hru]
  · rw [reset_password_success st now hashf tok pw rt u ht htu hte hru]
    show ((st.users.map _).find? _).map _ = _
    rw [find?_user_updated st.users rt.user_id hashf pw now u hru]
    rfl
  · intro pw0 hv
    simp [login, hu, hv, hinact]

/-- C10 witness: the concrete deactivated user still gets a reset email
attempt, a successful password reset from a valid token, and a 403 at
login. -/
theorem reset_flow_ignores_is_active_witness :
    (reset_password inactiveState 5 sampleHash "tokbob" "newpw123").1 =
      .ok ⟨"Password has been reset successfully"⟩ ∧
    (forgot_password sampleCfg inactiveState 5 "tvb" 200 "bob-example"
        EmailOutcome.raised).2.2 =
      some (inactiveUser.email,
        sampleCfg.FRONTEND_URL ++ "/reset-password?token=" ++ "tvb") ∧
    login inactiveState sampleVerify "bob-example" "bobpw" =
      .error ⟨403, "Account is inactive"⟩ := by
  have h := reset_flow_ignores_is_active sampleCfg inactiveState 5 "tvb" 200
    "bob-example" EmailOutcome.raised sampleHash sampleVerify "tokbob"
    "newpw123" inactiveUser inactiveToken (by decide) (by decide) (by decide)
    (by decide) (by decide) (by decide)
  exact ⟨h.2.2.2.1, h.2.2.1, h.2.2.2.2.2 "bobpw" (by decide)⟩

/-- C8: with each `reset_password` call running as one atomic transaction
(see `run_resets`), any serialization of N calls on the same still-valid
token has exactly one call succeed and the remaining N-1 fail with the
400 "This reset link has already been used". -/
theorem run_resets_exactly_one_success (now : Nat) (hashf : String → String)
    (tok : String) (st : DBState) (rt : PasswordResetToken) (u : User)
    (pw : String) (rest : List String)
    (h : st.tokens.find? (fun t => t.token == tok) = some rt)
    (hu : rt.used_at = none)
    (he : is_token_expired now rt.expires_at = false)
    (hus : st.users.find? (fun v => v.id == rt.user_id) = some u) :
    (run_resets now hashf tok st (pw :: rest)).1 =
      .ok ⟨"Password has been reset successfully"⟩ ::
        List.replicate rest.length
          (.error ⟨400, "This reset link has already been used"⟩) := by
  show ((reset_password st now hashf tok pw).1 ::
    (run_resets now hashf tok (reset_password st now hashf tok pw).2 rest).1) = _
  rw [reset_password_success st now hashf tok pw rt u h hu he hus]
  have hf' := find?_token_consumed st.tokens tok now rt h
  rw [run_resets_all_used now hashf tok
    ⟨st.users.map (fun v =>
        if v.id == u.id then
          { v with hashed_password := hashf pw, updated_at := now }
        else v),
      st.tokens.map (fun t =>
        if t.id == rt.id then { t with used_at := some now } else t)⟩
    { rt with used_at := some now } hf' rfl rest]

/-- C8 witness: three serialized reset calls on the sample valid token: the
first succeeds, the other two observe the already-used error. -/
theorem run_resets_exactly_one_success_witness :
    (run_resets 5 sampleHash "tok123" sampleState
        ("pwa" :: ["pwb", "pwc"])).1 =
      .ok ⟨"Password has been reset successfully"⟩ ::
        List.replicate (["pwb", "pwc"] : List String).length
          (.error ⟨400, "This reset link has already been used"⟩) :=
  run_resets_exactly_one_success 5 sampleHash "tok123" sampleState aliceToken
    aliceUser "pwa" ["pwb", "pwc"] (by decide) rfl (by decide) (by decide)
